import Mathlib

/-!
# epoll_server.c : a shallow embedding

The program `src/c/epoll_server.c` is a multithreaded epoll HTTP server example.
Every worker thread runs `loop`, which sets up its own listening socket and its
own epoll instance and then dispatches readiness events for ever.

The embedding makes the operating system explicit:

* every system call the C code issues is recorded, in program order, in a trace of
  `Call`s together with the value it returned where that value matters later;
* what the kernel answers to a call is an input of the model (`Ans`), so that a
  theorem quantified over the answers covers every behaviour of the environment;
* the part of the kernel state the claims talk about (the interest list of the
  epoll instance, the bytes delivered to a peer, the bytes left in a receive
  queue) is computed from the trace by `registry_of`, `transmitted`, `unread`.
-/

namespace EpollServer

/-! ## Constants of the source -/

/-- Source line 18: `#define MAX_EVENTS 128`. -/
def MAX_EVENTS : Nat := 128

/-- Source line 19: `#define BUF_SIZE 4096`. -/
def BUF_SIZE : Nat := 4096

/-- Source line 21: `#define HOST INADDR_ANY`, the address 0.0.0.0. -/
def HOST : Nat := 0

/-- Source line 22: `#define PORT 1337`. -/
def PORT : Nat := 1337

/-- Source line 24: `#define THREAD_NUMBER 2`. -/
def THREAD_NUMBER : Nat := 2

/-- Source lines 26-31: the string literal `resp_data` points to. -/
def resp_data : String :=
  "HTTP/1.1 200 OK\r\nContent-Length: 9\r\nContent-Type: json\r\n\r\n\x7b\"a\":\"b\"\x7d"

/-! ## Constants of the system headers (Linux values) -/

/-- Value of `EXIT_FAILURE` in stdlib.h. -/
def EXIT_FAILURE : Int := 1
/-- Value of `EAGAIN` in errno.h: the operation would block. -/
def EAGAIN : Int := 11
/-- Value of `EBADF` in errno.h: not a valid descriptor. -/
def EBADF : Int := 9
/-- Value of `EEXIST` in errno.h: the descriptor is already registered. -/
def EEXIST : Int := 17
/-- Value of `EPOLLIN` in sys/epoll.h. -/
def EPOLLIN : Nat := 1
/-- Value of `EPOLLET` in sys/epoll.h. -/
def EPOLLET : Nat := 2147483648
/-- Value of `EPOLL_CTL_ADD` in sys/epoll.h. -/
def EPOLL_CTL_ADD : Nat := 1
/-- Value of `EPOLL_CTL_DEL` in sys/epoll.h. -/
def EPOLL_CTL_DEL : Nat := 2
/-- Value of `EPOLL_CLOEXEC` in sys/epoll.h. -/
def EPOLL_CLOEXEC : Nat := 524288
/-- Value of `SOCK_CLOEXEC` in sys/socket.h. -/
def SOCK_CLOEXEC : Nat := 524288
/-- Value of `SOCK_NONBLOCK` in sys/socket.h. -/
def SOCK_NONBLOCK : Nat := 2048
/-- Value of `O_NONBLOCK` in fcntl.h. -/
def O_NONBLOCK : Nat := 2048
/-- Value of `AF_INET` in sys/socket.h. -/
def AF_INET : Nat := 2
/-- Value of `SOCK_STREAM` in sys/socket.h. -/
def SOCK_STREAM : Nat := 1
/-- Value of `SOMAXCONN` in sys/socket.h. -/
def SOMAXCONN : Nat := 4096
/-- Value of `SOL_SOCKET` in sys/socket.h. -/
def SOL_SOCKET : Nat := 1
/-- Value of `SOL_TCP` in netinet/tcp.h. -/
def SOL_TCP : Nat := 6
/-- Value of `TCP_NODELAY` in netinet/tcp.h. -/
def TCP_NODELAY : Nat := 1
/-- Value of `SO_REUSEADDR` in sys/socket.h. -/
def SO_REUSEADDR : Nat := 2
/-- Value of `SO_KEEPALIVE` in sys/socket.h. -/
def SO_KEEPALIVE : Nat := 9
/-- Value of `SO_REUSEPORT` in sys/socket.h. -/
def SO_REUSEPORT : Nat := 15

/-! ## C strings and machine integers -/

/-- The bytes a C string literal occupies in memory: its characters and the
terminating NUL. -/
def c_str (s : String) : List Char := s.toList ++ [Char.ofNat 0]

/-- The function `strlen` of string.h: the number of bytes before the first NUL. -/
def strlen : List Char → Nat
  | [] => 0
  | c :: cs => if c = Char.ofNat 0 then 0 else strlen cs + 1

/-- Conversion of a `ssize_t` value to the C type `int` (32 bits, two's
complement), as in `data_read = read(...)` and `data_sent = write(...)`. -/
def to_int (x : Int) : Int := (x + 2147483648) % 4294967296 - 2147483648

/-! ## The environment -/

/-- What the kernel answers to one system call: success with a value, or failure
with the value `errno` is set to.  The C return value of a failed call is -1. -/
inductive Ans (α : Type) where
  | ok (v : α)
  | err (errno : Int)
deriving DecidableEq

/-- The value of `errno` the code may consult after the call.  The code only
reads it when the call has just returned -1, that is after `Ans.err`. -/
def Ans.errno {α : Type} : Ans α → Int
  | .ok _ => 0
  | .err e => e

/-- C return value of a call that returns 0 on success (`setsockopt`, `bind`,
`listen`, `epoll_ctl`). -/
def Ans.status : Ans Unit → Int
  | .ok _ => 0
  | .err _ => -1

/-- C return value of a call that returns a new descriptor (`socket`,
`epoll_create1`, `accept4`). -/
def Ans.fd : Ans Nat → Int
  | .ok v => (v : Int)
  | .err _ => -1

/-- C return value of `read(fd, buf, count)`.  `Ans.ok bytes` says that `bytes`
are pending in the receive queue (none: end of stream); the kernel transfers at
most `count` of them. -/
def Ans.read_ret (a : Ans (List Char)) (count : Nat) : Int :=
  match a with
  | .ok bytes => ((min bytes.length count : Nat) : Int)
  | .err _ => -1

/-- C return value of `write(fd, buf, count)`.  `Ans.ok k` says that the socket
takes `k` bytes; the kernel accepts at most `count`. -/
def Ans.write_ret (a : Ans Nat) (count : Nat) : Int :=
  match a with
  | .ok k => ((min k count : Nat) : Int)
  | .err _ => -1

/-- One system or library call issued by the program, with the arguments the
source passes and, where later behaviour depends on it, the value returned. -/
inductive Call where
  | socket (domain type protocol : Nat)
  | setsockopt (sockfd : Int) (level optname : Nat) (optval : Int)
  | bind (sockfd : Int) (family addr port : Nat)
  | listen (sockfd : Int) (backlog : Nat)
  | epoll_create1 (flags : Nat)
  | epoll_ctl (epfd : Int) (op : Nat) (fd : Int) (events : Nat) (ret : Int)
  | epoll_wait (epfd : Int) (maxevents : Nat) (timeout : Int) (ret : Int)
  | accept4 (sockfd : Int) (flags : Nat) (ret : Int)
  | read (fd : Int) (count : Nat) (ret : Int)
  | write (fd : Int) (buf : List Char) (count : Nat) (ret : Int)
  | close (fd : Int)
  | perror (s : String)
  | exit (status : Int)
deriving DecidableEq

/-- How a C function ends: it returns to its caller, or it has called `exit`. -/
inductive Outcome where
  | returned
  | exited (status : Int)
deriving DecidableEq

/-- The calls a C function issued, in order, and how it ended. -/
structure Run where
  trace : List Call
  outcome : Outcome
deriving DecidableEq

/-! ## handle_request (source lines 96-114) -/

/-- The function `handle_request(fd)`; `rd` and `wr` are the kernel answers to
its `read` and to its `write`. -/
def handle_request (fd : Int) (rd : Ans (List Char)) (wr : Ans Nat) : Run :=
  let data_read : Int := to_int (rd.read_ret BUF_SIZE)
  let t1 : List Call := [Call.read fd BUF_SIZE (rd.read_ret BUF_SIZE)]
  if data_read ≤ 0 then
    ⟨t1 ++ [Call.close fd], Outcome.returned⟩
  else
    let len : Nat := strlen (c_str resp_data)
    let data_sent : Int := to_int (wr.write_ret len)
    let t2 : List Call := t1 ++ [Call.write fd ((c_str resp_data).take len) len (wr.write_ret len)]
    if data_sent = -1 then
      if wr.errno ≠ EAGAIN then
        ⟨t2 ++ [Call.perror "write(fd) failed", Call.exit EXIT_FAILURE],
          Outcome.exited EXIT_FAILURE⟩
      else
        ⟨t2, Outcome.returned⟩
    else
      ⟨t2, Outcome.returned⟩

/-! ## Kernel state read off a trace -/

/-- Recognises a `read` call. -/
def Call.is_read : Call → Bool
  | Call.read _ _ _ => true
  | _ => false

/-- Recognises a `write` call. -/
def Call.is_write : Call → Bool
  | Call.write _ _ _ _ => true
  | _ => false

/-- Recognises a `close` call. -/
def Call.is_close : Call → Bool
  | Call.close _ => true
  | _ => false

/-- Recognises an `exit` call. -/
def Call.is_exit : Call → Bool
  | Call.exit _ => true
  | _ => false

/-- The bytes the kernel accepted for transmission on `fd`: a `write` that
returned `ret >= 0` hands over the first `ret` bytes of its buffer. -/
def transmitted (fd : Int) : List Call → List Char
  | [] => []
  | Call.write f buf _ ret :: t =>
      (if f = fd then buf.take ret.toNat else []) ++ transmitted fd t
  | _ :: t => transmitted fd t

/-- What is left of the receive queue `pending` of `fd` after the calls of a
trace: a `read` that returned `ret > 0` consumed the first `ret` bytes. -/
def unread (fd : Int) (pending : List Char) : List Call → List Char
  | [] => pending
  | Call.read f _ ret :: t =>
      unread fd (if f = fd then pending.drop ret.toNat else pending) t
  | _ :: t => unread fd pending t

/-- The interest list of an epoll instance: registered descriptors with their
event masks. -/
abbrev Registry := List (Int × Nat)

/-- The effect of one call on the interest list of the epoll instance `epfd`:
a successful `EPOLL_CTL_ADD` inserts the descriptor, a successful
`EPOLL_CTL_DEL` removes it, and closing a descriptor removes it as well. -/
def kernel_step (epfd : Int) (reg : Registry) : Call → Registry
  | Call.epoll_ctl ep op fd events ret =>
      if ep = epfd ∧ ret = 0 then
        if op = EPOLL_CTL_ADD then (fd, events) :: reg
        else if op = EPOLL_CTL_DEL then reg.filter (fun p => p.1 ≠ fd)
        else reg
      else reg
  | Call.close fd => reg.filter (fun p => p.1 ≠ fd)
  | _ => reg

/-- The interest list of the epoll instance `epfd` after the calls of a trace. -/
def registry_of (epfd : Int) (trace : List Call) : Registry :=
  trace.foldl (kernel_step epfd) []

/-- The answer of the kernel to `epoll_ctl(epfd, EPOLL_CTL_ADD, fd, ...)` when the
interest list is `reg`: an invalid descriptor is refused with `EBADF`, a
descriptor that is already registered with `EEXIST`; otherwise the answer is the
one the environment gives. -/
def kernel_epoll_ctl_add (reg : Registry) (fd : Int) (env : Ans Unit) : Ans Unit :=
  if fd < 0 then Ans.err EBADF
  else if (reg.lookup fd).isSome then Ans.err EEXIST
  else env

/-! ## Helpers of the worker (source lines 36-94) -/

/-- The function `set_listener_socket_opts(sockfd)` with the TCP_NODELAY and
TCP_QUICKACK blocks compiled out, as in the source; `a1`, `a2` are the answers to
the two `setsockopt` calls. -/
def set_listener_socket_opts (sockfd : Int) (a1 a2 : Ans Unit) : Run :=
  let t1 : List Call := [Call.setsockopt sockfd SOL_SOCKET SO_REUSEADDR 1]
  if a1.status < 0 then
    ⟨t1 ++ [Call.perror "setsockopt(SO_REUSEADDR) failed", Call.exit EXIT_FAILURE],
      Outcome.exited EXIT_FAILURE⟩
  else
    let t2 : List Call := t1 ++ [Call.setsockopt sockfd SOL_SOCKET SO_REUSEPORT 1]
    if a2.status < 0 then
      ⟨t2 ++ [Call.perror "setsockopt(SO_REUSEPORT) failed", Call.exit EXIT_FAILURE],
        Outcome.exited EXIT_FAILURE⟩
    else
      ⟨t2, Outcome.returned⟩

/-- The function `add_fd_to_epoll(epfd, fd, events)`; `k` is the answer of the
kernel to its `epoll_ctl`. -/
def add_fd_to_epoll (epfd fd : Int) (events : Nat) (k : Ans Unit) : Run :=
  let t : List Call := [Call.epoll_ctl epfd EPOLL_CTL_ADD fd events k.status]
  if k.status = -1 then
    ⟨t ++ [Call.perror "epoll_ctl(epdf, EPOLL_CTL_ADD, fd) failed", Call.exit EXIT_FAILURE],
      Outcome.exited EXIT_FAILURE⟩
  else
    ⟨t, Outcome.returned⟩

/-- The function `del_fd_from_epoll(epfd, fd)`; `k` is the answer of the kernel to
its `epoll_ctl`.  Nothing in the source calls it. -/
def del_fd_from_epoll (epfd fd : Int) (k : Ans Unit) : Run :=
  let t : List Call := [Call.epoll_ctl epfd EPOLL_CTL_DEL fd 0 k.status]
  if k.status = -1 then
    ⟨t ++ [Call.perror "epoll_ctl(epfd, EPOLL_CTL_DEL, fd) failed", Call.exit EXIT_FAILURE],
      Outcome.exited EXIT_FAILURE⟩
  else
    ⟨t, Outcome.returned⟩

/-- The function `set_socket_opts(sockfd)`: two `setsockopt` calls whose results
the source ignores. -/
def set_socket_opts (sockfd : Int) : List Call :=
  [Call.setsockopt sockfd SOL_TCP TCP_NODELAY 1,
   Call.setsockopt sockfd SOL_SOCKET SO_KEEPALIVE 1]

/-! ## The worker: loop (source lines 116-189) -/

/-- The local state of one worker thread running `loop`: its two descriptors,
the calls it has issued so far, and the exit status once it has called `exit`
(`none` while it runs). -/
structure Worker where
  listen_sock_fd : Int
  epoll_fd : Int
  trace : List Call
  exited : Option Int
deriving DecidableEq

/-- The interest list of the worker's own epoll instance. -/
def Worker.registry (w : Worker) : Registry := registry_of w.epoll_fd w.trace

/-- The worker after a piece of code with run `r` has executed. -/
def Worker.after (w : Worker) (r : Run) : Worker :=
  { w with
    trace := w.trace ++ r.trace
    exited := match r.outcome with
      | Outcome.returned => none
      | Outcome.exited s => some s }

/-- One entry `events[i]` of the array filled by `epoll_wait`, with the answers
of the kernel to the calls the worker may issue while it dispatches the entry. -/
structure Ready where
  fd : Int
  accept4 : Ans Nat
  epoll_ctl : Ans Unit
  read : Ans (List Char)
  write : Ans Nat
deriving DecidableEq

/-- The body of the `for` loop of `loop` (source lines 168-182) for the entry `e`. -/
def loop_body (w : Worker) (e : Ready) : Run :=
  if e.fd = w.listen_sock_fd then
    let conn_fd : Int := e.accept4.fd
    let t : List Call :=
      [Call.accept4 w.listen_sock_fd (SOCK_CLOEXEC ||| O_NONBLOCK) conn_fd]
    let failed : Run :=
      ⟨t ++ [Call.perror "accept4(listen_sock_fd) failed", Call.exit EXIT_FAILURE],
        Outcome.exited EXIT_FAILURE⟩
    let k : Ans Unit := kernel_epoll_ctl_add w.registry conn_fd e.epoll_ctl
    let r : Run := add_fd_to_epoll w.epoll_fd conn_fd (EPOLLIN ||| EPOLLET) k
    let added : Run := ⟨t ++ set_socket_opts conn_fd ++ r.trace, r.outcome⟩
    if conn_fd = -1 then
      if e.accept4.errno ≠ EAGAIN then failed else added
    else
      added
  else
    handle_request e.fd e.read e.write

/-- The `for` loop of `loop` over the entries `events[0]`, ..., `events[fds_num-1]`
in this order; nothing more runs once the process has exited. -/
def for_loop (w : Worker) : List Ready → Worker
  | [] => w
  | e :: es =>
      let w1 : Worker := w.after (loop_body w e)
      match w1.exited with
      | none => for_loop w1 es
      | some _ => w1

/-- C return value of `epoll_wait(epfd, events, maxevents, timeout)`: the number
of entries written, at most `maxevents`, or -1. -/
def Ans.wait_ret (a : Ans (List Ready)) (maxevents : Nat) : Int :=
  match a with
  | .ok ready => ((min ready.length maxevents : Nat) : Int)
  | .err _ => -1

/-- The entries `epoll_wait` wrote into `events`: the first `maxevents` ready
ones. -/
def Ans.batch (a : Ans (List Ready)) (maxevents : Nat) : List Ready :=
  match a with
  | .ok ready => ready.take maxevents
  | .err _ => []

/-- One iteration of `while (1)` (source lines 161-184); `a` is the answer of the
kernel to `epoll_wait`. -/
def while_body (w : Worker) (a : Ans (List Ready)) : Worker :=
  let ep_timeout : Int := -1
  let fds_num : Int := a.wait_ret MAX_EVENTS
  let w1 : Worker :=
    w.after ⟨[Call.epoll_wait w.epoll_fd MAX_EVENTS ep_timeout fds_num], Outcome.returned⟩
  if fds_num = -1 then
    w1.after ⟨[Call.perror "epoll_wait failed", Call.exit EXIT_FAILURE],
      Outcome.exited EXIT_FAILURE⟩
  else
    for_loop w1 (a.batch MAX_EVENTS)

/-- The loop `while (1)`, run for as many iterations as there are answers to
`epoll_wait` in the list (the worker then blocks in the next wait); nothing more
runs once the process has exited. -/
def while_loop (w : Worker) : List (Ans (List Ready)) → Worker
  | [] => w
  | a :: rest =>
      let w1 : Worker := while_body w a
      match w1.exited with
      | none => while_loop w1 rest
      | some _ => w1

/-- The answers of the kernel to the calls of the set-up part of `loop`. -/
structure SetupEnv where
  socket : Ans Nat
  reuseaddr : Ans Unit
  reuseport : Ans Unit
  bind : Ans Unit
  listen : Ans Unit
  epoll_create1 : Ans Nat
  epoll_ctl : Ans Unit
deriving DecidableEq

/-- The set-up part of `loop` (source lines 129-159).  A local variable that has
not been assigned yet holds -1 in the model. -/
def loop_setup (s : SetupEnv) : Worker :=
  let listen_sock_fd : Int := s.socket.fd
  let w0 : Worker :=
    ⟨listen_sock_fd, -1,
      [Call.socket AF_INET (SOCK_STREAM ||| SOCK_CLOEXEC ||| SOCK_NONBLOCK) 0], none⟩
  if listen_sock_fd = -1 then
    w0.after ⟨[Call.perror "socket failed", Call.exit EXIT_FAILURE],
      Outcome.exited EXIT_FAILURE⟩
  else
    let w1 : Worker := w0.after (set_listener_socket_opts listen_sock_fd s.reuseaddr s.reuseport)
    match w1.exited with
    | some _ => w1
    | none =>
      let w2 : Worker := w1.after ⟨[Call.bind listen_sock_fd AF_INET HOST PORT], Outcome.returned⟩
      if s.bind.status = -1 then
        w2.after ⟨[Call.perror "bind failed", Call.exit EXIT_FAILURE],
          Outcome.exited EXIT_FAILURE⟩
      else
        let w3 : Worker := w2.after ⟨[Call.listen listen_sock_fd SOMAXCONN], Outcome.returned⟩
        if s.listen.status = -1 then
          w3.after ⟨[Call.perror "listen failed", Call.exit EXIT_FAILURE],
            Outcome.exited EXIT_FAILURE⟩
        else
          let epoll_fd : Int := s.epoll_create1.fd
          let w4 : Worker :=
            { w3 with
              epoll_fd := epoll_fd
              trace := w3.trace ++ [Call.epoll_create1 EPOLL_CLOEXEC] }
          if epoll_fd = -1 then
            w4.after ⟨[Call.perror "epoll_create failed", Call.exit EXIT_FAILURE],
              Outcome.exited EXIT_FAILURE⟩
          else
            w4.after (add_fd_to_epoll epoll_fd listen_sock_fd EPOLLIN
              (kernel_epoll_ctl_add w4.registry listen_sock_fd s.epoll_ctl))

/-- The function `loop`: the set-up, then the `while (1)` loop for as long as the
list of `epoll_wait` answers lasts. -/
def loop (s : SetupEnv) (waits : List (Ans (List Ready))) : Worker :=
  let w : Worker := loop_setup s
  match w.exited with
  | none => while_loop w waits
  | some _ => w

/-! ## Predicates used to state the properties of the worker -/

/-- A call that closes the descriptor `fd`, reads from it or writes to it (what
`handle_request(fd)` does), or that removes a descriptor from an epoll instance. -/
def Call.disturbs (fd : Int) : Call → Bool
  | Call.close f => decide (f = fd)
  | Call.read f _ _ => decide (f = fd)
  | Call.write f _ _ _ => decide (f = fd)
  | Call.epoll_ctl _ op _ _ _ => decide (op = EPOLL_CTL_DEL)
  | _ => false

/-- The listener invariant of a worker whose listening descriptor is `l` and
whose epoll descriptor is `ep`: both variables still hold these values, the
listening descriptor is in the interest list with mask `EPOLLIN`, and no call
issued so far disturbs it. -/
def Worker.listener_ok (l ep : Int) (w : Worker) : Prop :=
  w.listen_sock_fd = l ∧ w.epoll_fd = ep
    ∧ (registry_of ep w.trace).lookup l = some EPOLLIN
    ∧ ∀ c ∈ w.trace, c.disturbs l = false

/-- The descriptor each dispatch of a trace starts with: the listener branch of
the loop body starts with `accept4` on the listening descriptor, and
`handle_request(fd)` starts with `read` on `fd`. -/
def dispatched : List Call → List Int
  | [] => []
  | Call.accept4 sockfd _ _ :: t => sockfd :: dispatched t
  | Call.read fd _ _ :: t => fd :: dispatched t
  | _ :: t => dispatched t

/-- An environment in which the set-up succeeds: `socket` returns 3 and
`epoll_create1` returns 4. -/
def sample_setup : SetupEnv :=
  ⟨Ans.ok 3, Ans.ok (), Ans.ok (), Ans.ok (), Ans.ok (), Ans.ok 4, Ans.ok ()⟩

/-- A readiness entry for the listening descriptor 3 whose `accept4` succeeds
with the new descriptor `c`. -/
def sample_accept (c : Nat) : Ready :=
  ⟨3, Ans.ok c, Ans.ok (), Ans.ok [], Ans.ok 0⟩

/-- A readiness entry for the connection `fd` on which `pending` is waiting and
whose `write` takes the whole response. -/
def sample_request (fd : Int) (pending : List Char) : Ready :=
  ⟨fd, Ans.err EAGAIN, Ans.ok (), Ans.ok pending, Ans.ok 67⟩

/-- A readiness entry for the listening descriptor 3 whose `accept4` finds no
pending connection. -/
def sample_would_block : Ready :=
  ⟨3, Ans.err EAGAIN, Ans.ok (), Ans.ok [], Ans.ok 0⟩

theorem strlen_resp_data : strlen (c_str resp_data) = 67 := by decide

theorem resp_data_buffer : (c_str resp_data).take 67 = resp_data.toList := by decide

theorem resp_data_length : resp_data.toList.length = 67 := by decide

theorem to_int_small (x : Int) (h0 : -1 ≤ x) (h1 : x ≤ 4096) : to_int x = x := by
  unfold to_int
  omega

theorem read_ret_bounds (rd : Ans (List Char)) :
    -1 ≤ rd.read_ret BUF_SIZE ∧ rd.read_ret BUF_SIZE ≤ 4096 := by
  cases rd with
  | ok bytes =>
    simp only [Ans.read_ret, BUF_SIZE]
    omega
  | err e => simp [Ans.read_ret]

theorem write_ret_bounds (wr : Ans Nat) :
    -1 ≤ wr.write_ret 67 ∧ wr.write_ret 67 ≤ 67 := by
  cases wr with
  | ok k =>
    simp only [Ans.write_ret]
    omega
  | err e => simp [Ans.write_ret]

/-- When the read brings nothing (`read` returned 0 or -1), `handle_request`
closes the descriptor and returns. -/
theorem handle_request_no_data (fd : Int) (rd : Ans (List Char)) (wr : Ans Nat)
    (h : rd.read_ret BUF_SIZE ≤ 0) :
    handle_request fd rd wr =
      ⟨[Call.read fd BUF_SIZE (rd.read_ret BUF_SIZE), Call.close fd], Outcome.returned⟩ := by
  have hb := read_ret_bounds rd
  have hc : to_int (rd.read_ret BUF_SIZE) = rd.read_ret BUF_SIZE :=
    to_int_small _ hb.1 hb.2
  simp [handle_request, hc, h]

/-- When the read brings data, `handle_request` writes the response once; it
exits exactly on a write failure other than `EAGAIN`. -/
theorem handle_request_data (fd : Int) (rd : Ans (List Char)) (wr : Ans Nat)
    (h : 0 < rd.read_ret BUF_SIZE) :
    handle_request fd rd wr =
      if wr.write_ret 67 = -1 ∧ wr.errno ≠ EAGAIN then
        ⟨[Call.read fd BUF_SIZE (rd.read_ret BUF_SIZE),
          Call.write fd resp_data.toList 67 (wr.write_ret 67),
          Call.perror "write(fd) failed", Call.exit EXIT_FAILURE],
          Outcome.exited EXIT_FAILURE⟩
      else
        ⟨[Call.read fd BUF_SIZE (rd.read_ret BUF_SIZE),
          Call.write fd resp_data.toList 67 (wr.write_ret 67)], Outcome.returned⟩ := by
  have hb := read_ret_bounds rd
  have hc : to_int (rd.read_ret BUF_SIZE) = rd.read_ret BUF_SIZE :=
    to_int_small _ hb.1 hb.2
  have hw := write_ret_bounds wr
  have hd : to_int (wr.write_ret 67) = wr.write_ret 67 :=
    to_int_small _ hw.1 (by omega)
  have hn : ¬ rd.read_ret BUF_SIZE ≤ 0 := by omega
  simp only [handle_request, hc, hn, strlen_resp_data, resp_data_buffer, hd, if_false]
  by_cases h1 : wr.write_ret 67 = -1
  · by_cases h2 : wr.errno = EAGAIN
    · simp [h1, h2]
    · simp [h1, h2]
  · simp [h1]

theorem drop_min_length (l : List Char) (n : Nat) :
    l.drop (min l.length n) = l.drop n := by
  by_cases h : l.length ≤ n
  · rw [Nat.min_eq_left h, List.drop_length, List.drop_eq_nil_of_le h]
  · rw [Nat.min_eq_right (by omega)]

/-! ## Claims about handle_request -/

/-- C3: whenever the read of `handle_request` returns n > 0 bytes, whatever the
descriptor and the bytes read, the handler issues exactly one write, on the same
descriptor, whose buffer and length are the whole of `resp_data`; `resp_data` is
the status line, `Content-Length:` with the decimal length of the body, the
`Content-Type` header, a blank line and the 9-byte body; the write request is the
same for any two request contents. -/
theorem handle_request_writes_fixed_response (fd : Int) (rd : Ans (List Char)) (wr : Ans Nat)
    (h : 0 < rd.read_ret BUF_SIZE) :
    (handle_request fd rd wr).trace.filter Call.is_write =
        [Call.write fd resp_data.toList resp_data.toList.length
          (wr.write_ret resp_data.toList.length)]
    ∧ (c_str resp_data).take (strlen (c_str resp_data)) = resp_data.toList
    ∧ strlen (c_str resp_data) = resp_data.toList.length
    ∧ resp_data = "HTTP/1.1 200 OK\r\nContent-Length: "
          ++ toString (String.length "\x7b\"a\":\"b\"\x7d")
          ++ "\r\nContent-Type: json\r\n\r\n" ++ "\x7b\"a\":\"b\"\x7d"
    ∧ String.utf8ByteSize "\x7b\"a\":\"b\"\x7d" = 9
    ∧ ∀ rd2 : Ans (List Char), 0 < rd2.read_ret BUF_SIZE →
        (handle_request fd rd2 wr).trace.filter Call.is_write =
          (handle_request fd rd wr).trace.filter Call.is_write := by
  have key : ∀ r : Ans (List Char), 0 < r.read_ret BUF_SIZE →
      (handle_request fd r wr).trace.filter Call.is_write =
        [Call.write fd resp_data.toList 67 (wr.write_ret 67)] := by
    intro r hr
    rw [handle_request_data fd r wr hr]
    split <;> simp [Call.is_read, Call.is_write]
  refine ⟨?_, ?_, ?_, by decide, by decide, ?_⟩
  · rw [resp_data_length]
    exact key rd h
  · rw [strlen_resp_data]
    exact resp_data_buffer
  · rw [strlen_resp_data, resp_data_length]
  · intro rd2 h2
    rw [key rd2 h2, key rd h]

/-- Witness for C3: a request of 18 bytes on descriptor 7. -/
theorem handle_request_writes_fixed_response_witness :
    (handle_request 7 (Ans.ok "GET / HTTP/1.1\r\n\r\n".toList) (Ans.ok 67)).trace.filter
        Call.is_write =
      [Call.write 7 resp_data.toList resp_data.toList.length
        ((Ans.ok 67).write_ret resp_data.toList.length)] :=
  (handle_request_writes_fixed_response 7 (Ans.ok "GET / HTTP/1.1\r\n\r\n".toList) (Ans.ok 67)
    (by decide)).1

/-- C4: when the read of `handle_request` returns 0 (end of stream), the handler
closes the descriptor exactly once, issues no write, and returns without
terminating the process. -/
theorem handle_request_end_of_stream (fd : Int) (rd : Ans (List Char)) (wr : Ans Nat)
    (h : rd.read_ret BUF_SIZE = 0) :
    (handle_request fd rd wr).trace = [Call.read fd BUF_SIZE 0, Call.close fd]
    ∧ (handle_request fd rd wr).trace.filter Call.is_close = [Call.close fd]
    ∧ (handle_request fd rd wr).trace.filter Call.is_write = []
    ∧ (handle_request fd rd wr).trace.filter Call.is_exit = []
    ∧ (handle_request fd rd wr).outcome = Outcome.returned := by
  rw [handle_request_no_data fd rd wr (by omega), h]
  simp [Call.is_close, Call.is_write, Call.is_exit]

/-- Witness for C4: end of stream on descriptor 7. -/
theorem handle_request_end_of_stream_witness :
    (handle_request 7 (Ans.ok []) (Ans.ok 67)).trace = [Call.read 7 BUF_SIZE 0, Call.close 7] :=
  (handle_request_end_of_stream 7 (Ans.ok []) (Ans.ok 67) (by decide)).1

/-- C6: after a successful read (n > 0), `handle_request` terminates the process
with `EXIT_FAILURE` if and only if the write returns -1 with `errno` different
from `EAGAIN`; when the write fails with `EAGAIN` or returns a non-negative
count, the handler returns normally, without closing and without exiting. -/
theorem handle_request_exit_iff (fd : Int) (rd : Ans (List Char)) (wr : Ans Nat)
    (h : 0 < rd.read_ret BUF_SIZE) :
    ((handle_request fd rd wr).outcome = Outcome.exited EXIT_FAILURE ↔
        (wr.write_ret (strlen (c_str resp_data)) = -1 ∧ wr.errno ≠ EAGAIN))
    ∧ (Call.exit EXIT_FAILURE ∈ (handle_request fd rd wr).trace ↔
        (wr.write_ret (strlen (c_str resp_data)) = -1 ∧ wr.errno ≠ EAGAIN))
    ∧ ((0 ≤ wr.write_ret (strlen (c_str resp_data))
          ∨ (wr.write_ret (strlen (c_str resp_data)) = -1 ∧ wr.errno = EAGAIN)) →
        (handle_request fd rd wr).outcome = Outcome.returned
        ∧ (handle_request fd rd wr).trace.filter Call.is_close = []
        ∧ (handle_request fd rd wr).trace.filter Call.is_exit = []) := by
  rw [handle_request_data fd rd wr h, strlen_resp_data]
  by_cases hc : wr.write_ret 67 = -1 ∧ wr.errno ≠ EAGAIN
  · rw [if_pos hc]
    refine ⟨by simp [hc], by simp [hc], ?_⟩
    rintro (h0 | ⟨_, h1⟩)
    · omega
    · exact absurd h1 hc.2
  · rw [if_neg hc]
    refine ⟨by simp [hc], by simp [hc], ?_⟩
    intro _
    simp [Call.is_close, Call.is_exit]

/-- Witness for C6: one byte read on descriptor 7, then a write that fails with errno 32. -/
theorem handle_request_exit_iff_witness :
    (handle_request 7 (Ans.ok [Char.ofNat 71]) (Ans.err 32)).outcome
        = Outcome.exited EXIT_FAILURE ↔
      ((Ans.err 32 : Ans Nat).write_ret (strlen (c_str resp_data)) = -1
        ∧ (Ans.err 32 : Ans Nat).errno ≠ EAGAIN) :=
  (handle_request_exit_iff 7 (Ans.ok [Char.ofNat 71]) (Ans.err 32) (by decide)).1

theorem handle_request_reads_once (fd : Int) (rd : Ans (List Char)) (wr : Ans Nat) :
    (handle_request fd rd wr).trace.filter Call.is_read =
      [Call.read fd BUF_SIZE (rd.read_ret BUF_SIZE)] := by
  by_cases h : rd.read_ret BUF_SIZE ≤ 0
  · rw [handle_request_no_data fd rd wr h]
    simp [Call.is_read]
  · rw [handle_request_data fd rd wr (by omega)]
    split <;> simp [Call.is_read]

theorem unread_handle_request (fd : Int) (pending : List Char) (wr : Ans Nat) :
    unread fd pending (handle_request fd (Ans.ok pending) wr).trace =
      pending.drop BUF_SIZE := by
  have hr : (Ans.ok pending).read_ret BUF_SIZE = ((min pending.length BUF_SIZE : Nat) : Int) := rfl
  by_cases h : (Ans.ok pending).read_ret BUF_SIZE ≤ 0
  · rw [handle_request_no_data fd _ wr h]
    simp only [unread, if_true, hr, Int.toNat_ofNat, drop_min_length]
  · rw [handle_request_data fd _ wr (by omega)]
    split <;> simp only [unread, if_true, hr, Int.toNat_ofNat, drop_min_length]

/-- C2, as stated, fails: the read brings one byte on descriptor 5 and the write
returns the short count 5; `handle_request` returns normally, the peer has been
sent the five bytes `HTTP/`, which are not the whole response, and the descriptor
has not been closed. -/
theorem handle_request_short_write_truncates :
    (handle_request 5 (Ans.ok [Char.ofNat 71]) (Ans.ok 5)).outcome = Outcome.returned
    ∧ transmitted 5 (handle_request 5 (Ans.ok [Char.ofNat 71]) (Ans.ok 5)).trace
        = "HTTP/".toList
    ∧ transmitted 5 (handle_request 5 (Ans.ok [Char.ofNat 71]) (Ans.ok 5)).trace
        ≠ resp_data.toList
    ∧ Call.close 5 ∉ (handle_request 5 (Ans.ok [Char.ofNat 71]) (Ans.ok 5)).trace := by
  decide

/-- C2, amended: after a read of n > 0 bytes, the peer has been sent exactly the
first k bytes of the fixed response, where k is the count the single write
returned (nothing when the write failed); the whole response has been sent
exactly when the write returned the full count; and when the handler returns it
has not closed the connection. -/
theorem handle_request_transmits_written_count (fd : Int) (rd : Ans (List Char))
    (wr : Ans Nat) (h : 0 < rd.read_ret BUF_SIZE) :
    transmitted fd (handle_request fd rd wr).trace =
        resp_data.toList.take (wr.write_ret (strlen (c_str resp_data))).toNat
    ∧ (transmitted fd (handle_request fd rd wr).trace = resp_data.toList ↔
        wr.write_ret (strlen (c_str resp_data)) = ((strlen (c_str resp_data) : Nat) : Int))
    ∧ ((handle_request fd rd wr).outcome = Outcome.returned →
        (handle_request fd rd wr).trace.filter Call.is_close = []) := by
  have ht : transmitted fd (handle_request fd rd wr).trace =
      resp_data.toList.take (wr.write_ret 67).toNat := by
    rw [handle_request_data fd rd wr h]
    split <;> simp [transmitted]
  have hw := write_ret_bounds wr
  rw [strlen_resp_data]
  refine ⟨ht, ?_, ?_⟩
  · rw [ht, List.take_eq_self_iff, resp_data_length]
    omega
  · rw [handle_request_data fd rd wr h]
    split <;> simp [Call.is_close]

/-- Witness for the amended C2: one byte read on descriptor 7 and a full write. -/
theorem handle_request_transmits_written_count_witness :
    transmitted 7 (handle_request 7 (Ans.ok [Char.ofNat 71]) (Ans.ok 67)).trace =
      resp_data.toList.take ((Ans.ok 67).write_ret (strlen (c_str resp_data))).toNat :=
  (handle_request_transmits_written_count 7 (Ans.ok [Char.ofNat 71]) (Ans.ok 67)
    (by decide)).1

/-- C8, as stated, fails: with 4097 bytes pending on descriptor 5,
`handle_request` issues a single read, which returns 4096 (neither would-block
nor end of stream), and one pending byte is still unread when it returns. -/
theorem handle_request_does_not_drain :
    (handle_request 5 (Ans.ok (List.replicate 4097 (Char.ofNat 97))) (Ans.ok 67)).trace.filter
        Call.is_read = [Call.read 5 BUF_SIZE 4096]
    ∧ unread 5 (List.replicate 4097 (Char.ofNat 97))
        (handle_request 5 (Ans.ok (List.replicate 4097 (Char.ofNat 97))) (Ans.ok 67)).trace
        = [Char.ofNat 97]
    ∧ (handle_request 5 (Ans.ok (List.replicate 4097 (Char.ofNat 97))) (Ans.ok 67)).outcome
        = Outcome.returned := by
  have hr : (Ans.ok (List.replicate 4097 (Char.ofNat 97))).read_ret BUF_SIZE = 4096 := by
    simp only [Ans.read_ret, List.length_replicate, BUF_SIZE]
    rfl
  have hn : ¬ ((Ans.ok 67 : Ans Nat).write_ret 67 = -1
      ∧ (Ans.ok 67 : Ans Nat).errno ≠ EAGAIN) := by decide
  refine ⟨?_, ?_, ?_⟩
  · rw [handle_request_reads_once, hr]
  · rw [unread_handle_request, BUF_SIZE, List.drop_replicate]
    rfl
  · rw [handle_request_data _ _ _ (by rw [hr]; decide), if_neg hn]

/-- C8, amended: every invocation of `handle_request` issues exactly one read, of
at most `BUF_SIZE` bytes; of the pending input it leaves unread everything after
the first `BUF_SIZE` bytes, so nothing remains unread exactly when at most
`BUF_SIZE` bytes were pending. -/
theorem handle_request_single_read (fd : Int) (rd : Ans (List Char)) (wr : Ans Nat) :
    (handle_request fd rd wr).trace.filter Call.is_read =
        [Call.read fd BUF_SIZE (rd.read_ret BUF_SIZE)]
    ∧ rd.read_ret BUF_SIZE ≤ (BUF_SIZE : Int)
    ∧ ∀ pending : List Char, rd = Ans.ok pending →
        unread fd pending (handle_request fd rd wr).trace = pending.drop BUF_SIZE
        ∧ (unread fd pending (handle_request fd rd wr).trace = [] ↔
            pending.length ≤ BUF_SIZE) := by
  refine ⟨handle_request_reads_once fd rd wr, ?_, ?_⟩
  · have hb := read_ret_bounds rd
    simp only [BUF_SIZE] at hb ⊢
    omega
  · intro pending hp
    subst hp
    rw [unread_handle_request]
    exact ⟨rfl, List.drop_eq_nil_iff⟩

/-! ## The worker loop -/

theorem registry_of_append (ep : Int) (t1 t2 : List Call) :
    registry_of ep (t1 ++ t2) = t2.foldl (kernel_step ep) (registry_of ep t1) := by
  simp [registry_of, List.foldl_append]

theorem lookup_filter_ne (l fd : Int) (reg : Registry) (h : fd ≠ l) :
    (reg.filter (fun p => p.1 ≠ fd)).lookup l = reg.lookup l := by
  induction reg with
  | nil => rfl
  | cons p reg ih =>
    obtain ⟨a, b⟩ := p
    rw [List.filter_cons]
    split
    · rw [List.lookup_cons, List.lookup_cons, ih]
    · rename_i hc
      have ha : a = fd := by simpa using hc
      have hl : (l == a) = false := by
        simp only [beq_eq_false_iff_ne, ne_eq]
        intro hla
        exact h (ha.symm.trans hla.symm)
      rw [ih, List.lookup_cons, hl]

theorem lookup_filter_self (fd : Int) (reg : Registry) :
    (reg.filter (fun p => p.1 ≠ fd)).lookup fd = none := by
  induction reg with
  | nil => rfl
  | cons p reg ih =>
    obtain ⟨a, b⟩ := p
    rw [List.filter_cons]
    split
    · rename_i hc
      have ha : (fd == a) = false := by
        simp only [beq_eq_false_iff_ne, ne_eq]
        intro hh
        simp [hh] at hc
      rw [List.lookup_cons, ha]
      exact ih
    · exact ih

theorem lookup_cons_ne (l fd : Int) (ev : Nat) (reg : Registry) (h : fd ≠ l) :
    List.lookup l ((fd, ev) :: reg) = reg.lookup l := by
  have hl : (l == fd) = false := by
    simp only [beq_eq_false_iff_ne, ne_eq]
    exact fun hh => h hh.symm
  simp [List.lookup_cons, hl]

theorem kernel_epoll_ctl_add_ok (reg : Registry) (fd : Int) (env : Ans Unit)
    (h : (kernel_epoll_ctl_add reg fd env).status = 0) :
    0 ≤ fd ∧ reg.lookup fd = none := by
  unfold kernel_epoll_ctl_add at h
  by_cases h1 : fd < 0
  · simp [h1, Ans.status] at h
  · by_cases h2 : (reg.lookup fd).isSome
    · simp [h1, h2, Ans.status] at h
    · exact ⟨by omega, Option.not_isSome_iff_eq_none.mp h2⟩

theorem status_cases (k : Ans Unit) : k.status = 0 ∨ k.status = -1 := by
  cases k <;> simp [Ans.status]

theorem after_trace (w : Worker) (r : Run) : (w.after r).trace = w.trace ++ r.trace := rfl

theorem after_epoll (w : Worker) (r : Run) : (w.after r).epoll_fd = w.epoll_fd := rfl

/-- Appending calls that do not disturb the listener and leave its registration
in place keeps the listener invariant. -/
theorem listener_ok_after (l ep : Int) (w : Worker) (r : Run)
    (hw : w.listener_ok l ep)
    (hd : ∀ c ∈ r.trace, c.disturbs l = false)
    (hk : (r.trace.foldl (kernel_step ep) (registry_of ep w.trace)).lookup l = some EPOLLIN) :
    (w.after r).listener_ok l ep := by
  obtain ⟨h1, h2, _, h4⟩ := hw
  refine ⟨h1, h2, ?_, ?_⟩
  · rw [after_trace, registry_of_append]
    exact hk
  · intro c hc
    rw [after_trace, List.mem_append] at hc
    rcases hc with hc | hc
    · exact h4 c hc
    · exact hd c hc

theorem handle_request_keeps_listener (l ep fd : Int) (rd : Ans (List Char)) (wr : Ans Nat)
    (reg : Registry) (hfd : fd ≠ l) :
    (∀ c ∈ (handle_request fd rd wr).trace, c.disturbs l = false)
    ∧ ((handle_request fd rd wr).trace.foldl (kernel_step ep) reg).lookup l = reg.lookup l := by
  by_cases h : rd.read_ret BUF_SIZE ≤ 0
  · rw [handle_request_no_data fd rd wr h]
    constructor
    · intro c hc
      simp only [List.mem_cons, List.mem_singleton, List.not_mem_nil, or_false] at hc
      rcases hc with rfl | rfl <;> simp [Call.disturbs, hfd]
    · simp only [List.foldl, kernel_step]
      exact lookup_filter_ne l fd reg hfd
  · rw [handle_request_data fd rd wr (by omega)]
    split
    · constructor
      · intro c hc
        simp only [List.mem_cons, List.mem_singleton, List.not_mem_nil, or_false] at hc
        rcases hc with rfl | rfl | rfl | rfl <;> simp [Call.disturbs, hfd]
      · simp only [List.foldl, kernel_step]
    · constructor
      · intro c hc
        simp only [List.mem_cons, List.mem_singleton, List.not_mem_nil, or_false] at hc
        rcases hc with rfl | rfl <;> simp [Call.disturbs, hfd]
      · simp only [List.foldl, kernel_step]

theorem add_fd_to_epoll_ok (epfd fd : Int) (events : Nat) (k : Ans Unit) (h : k.status = 0) :
    add_fd_to_epoll epfd fd events k =
      ⟨[Call.epoll_ctl epfd EPOLL_CTL_ADD fd events 0], Outcome.returned⟩ := by
  simp [add_fd_to_epoll, h]

theorem add_fd_to_epoll_failed (epfd fd : Int) (events : Nat) (k : Ans Unit)
    (h : k.status = -1) :
    add_fd_to_epoll epfd fd events k =
      ⟨[Call.epoll_ctl epfd EPOLL_CTL_ADD fd events (-1),
        Call.perror "epoll_ctl(epdf, EPOLL_CTL_ADD, fd) failed", Call.exit EXIT_FAILURE],
        Outcome.exited EXIT_FAILURE⟩ := by
  simp [add_fd_to_epoll, h]

/-- The listener branch of the loop body: a fatal accept error ends the process;
in every other case, a failed accept with `EAGAIN` included, the code goes on to
`set_socket_opts` and `add_fd_to_epoll` with the value `accept4` returned. -/
theorem loop_body_listener (w : Worker) (e : Ready) (h : e.fd = w.listen_sock_fd) :
    loop_body w e =
      if e.accept4.fd = -1 ∧ e.accept4.errno ≠ EAGAIN then
        ⟨[Call.accept4 w.listen_sock_fd (SOCK_CLOEXEC ||| O_NONBLOCK) e.accept4.fd,
          Call.perror "accept4(listen_sock_fd) failed", Call.exit EXIT_FAILURE],
          Outcome.exited EXIT_FAILURE⟩
      else
        ⟨Call.accept4 w.listen_sock_fd (SOCK_CLOEXEC ||| O_NONBLOCK) e.accept4.fd
            :: (set_socket_opts e.accept4.fd
              ++ (add_fd_to_epoll w.epoll_fd e.accept4.fd (EPOLLIN ||| EPOLLET)
                    (kernel_epoll_ctl_add w.registry e.accept4.fd e.epoll_ctl)).trace),
          (add_fd_to_epoll w.epoll_fd e.accept4.fd (EPOLLIN ||| EPOLLET)
            (kernel_epoll_ctl_add w.registry e.accept4.fd e.epoll_ctl)).outcome⟩ := by
  unfold loop_body
  by_cases h1 : e.accept4.fd = -1
  · by_cases h2 : e.accept4.errno = EAGAIN
    · simp [h, h1, h2]
    · simp [h, h1, h2]
  · simp [h, h1]

theorem loop_body_connection (w : Worker) (e : Ready) (h : e.fd ≠ w.listen_sock_fd) :
    loop_body w e = handle_request e.fd e.read e.write := by
  simp [loop_body, h]

theorem loop_body_keeps_listener (l ep : Int) (w : Worker) (e : Ready)
    (hw : w.listener_ok l ep) :
    (∀ c ∈ (loop_body w e).trace, c.disturbs l = false)
    ∧ ((loop_body w e).trace.foldl (kernel_step ep) (registry_of ep w.trace)).lookup l
        = some EPOLLIN := by
  obtain ⟨h1, h2, h3, _⟩ := hw
  by_cases hfd : e.fd = w.listen_sock_fd
  · rw [loop_body_listener w e hfd]
    split
    · constructor
      · intro c hc
        simp only [List.mem_cons, List.mem_singleton, List.not_mem_nil, or_false] at hc
        rcases hc with rfl | rfl | rfl <;> rfl
      · simpa only [List.foldl, kernel_step] using h3
    · rcases status_cases (kernel_epoll_ctl_add w.registry e.accept4.fd e.epoll_ctl) with hk | hk
      · have hreg := (kernel_epoll_ctl_add_ok _ _ _ hk).2
        have hne : e.accept4.fd ≠ l := by
          intro heq
          rw [heq, Worker.registry, h2, h3] at hreg
          cases hreg
        rw [add_fd_to_epoll_ok _ _ _ _ hk]
        constructor
        · intro c hc
          simp only [set_socket_opts, List.cons_append, List.nil_append, List.mem_cons,
            List.mem_singleton, List.not_mem_nil, or_false] at hc
          rcases hc with rfl | rfl | rfl | rfl <;> simp [Call.disturbs, EPOLL_CTL_ADD, EPOLL_CTL_DEL]
        · simp only [set_socket_opts, List.cons_append, List.nil_append, List.foldl,
            kernel_step, h2, and_self, if_true]
          rw [lookup_cons_ne l _ _ _ hne]
          exact h3
      · rw [add_fd_to_epoll_failed _ _ _ _ hk]
        constructor
        · intro c hc
          simp only [set_socket_opts, List.cons_append, List.nil_append, List.mem_cons,
            List.mem_singleton, List.not_mem_nil, or_false] at hc
          rcases hc with rfl | rfl | rfl | rfl | rfl | rfl <;>
            simp [Call.disturbs, EPOLL_CTL_ADD, EPOLL_CTL_DEL]
        · have hneg : ¬ ((-1 : Int) = 0) := by decide
          simp only [set_socket_opts, List.cons_append, List.nil_append, List.foldl,
            kernel_step, hneg, and_false, if_false]
          exact h3
  · rw [loop_body_connection w e hfd]
    have hne : e.fd ≠ l := by rw [← h1]; exact hfd
    have hh := handle_request_keeps_listener l ep e.fd e.read e.write
      (registry_of ep w.trace) hne
    exact ⟨hh.1, hh.2.trans h3⟩

theorem for_loop_keeps_listener (l ep : Int) (es : List Ready) :
    ∀ w : Worker, w.listener_ok l ep → (for_loop w es).listener_ok l ep := by
  induction es with
  | nil => intro w hw; exact hw
  | cons e es ih =>
    intro w hw
    have hk := loop_body_keeps_listener l ep w e hw
    have hw1 := listener_ok_after l ep w (loop_body w e) hw hk.1 hk.2
    simp only [for_loop]
    split
    · exact ih _ hw1
    · exact hw1

theorem while_body_keeps_listener (l ep : Int) (w : Worker) (a : Ans (List Ready))
    (hw : w.listener_ok l ep) : (while_body w a).listener_ok l ep := by
  have hw1 : (w.after ⟨[Call.epoll_wait w.epoll_fd MAX_EVENTS (-1) (a.wait_ret MAX_EVENTS)],
      Outcome.returned⟩).listener_ok l ep := by
    apply listener_ok_after l ep w _ hw
    · intro c hc
      simp only [List.mem_singleton] at hc
      subst hc
      rfl
    · simpa only [List.foldl, kernel_step] using hw.2.2.1
  unfold while_body
  simp only []
  split
  · apply listener_ok_after l ep _ _ hw1
    · intro c hc
      simp only [List.mem_cons, List.mem_singleton, List.not_mem_nil, or_false] at hc
      rcases hc with rfl | rfl <;> rfl
    · simpa only [List.foldl, kernel_step] using hw1.2.2.1
  · exact for_loop_keeps_listener l ep _ _ hw1

theorem while_loop_keeps_listener (l ep : Int) (waits : List (Ans (List Ready))) :
    ∀ w : Worker, w.listener_ok l ep → (while_loop w waits).listener_ok l ep := by
  induction waits with
  | nil => intro w hw; exact hw
  | cons a rest ih =>
    intro w hw
    have hw1 := while_body_keeps_listener l ep w a hw
    simp only [while_loop]
    split
    · exact ih _ hw1
    · exact hw1

theorem nat_fd_ne (v : Nat) : ¬ ((v : Int) = -1) := by omega

theorem nat_fd_nonneg (v : Nat) : ¬ ((v : Int) < 0) := by omega

/-- The set-up completes only when every call succeeded; the worker then holds
the two new descriptors and has registered the listener with `EPOLLIN`. -/
theorem loop_setup_completes (s : SetupEnv) (h : (loop_setup s).exited = none) :
    ∃ l ep : Nat, s.socket = Ans.ok l ∧ s.epoll_create1 = Ans.ok ep ∧
      loop_setup s =
        ⟨(l : Int), (ep : Int),
          [Call.socket AF_INET (SOCK_STREAM ||| SOCK_CLOEXEC ||| SOCK_NONBLOCK) 0,
           Call.setsockopt l SOL_SOCKET SO_REUSEADDR 1,
           Call.setsockopt l SOL_SOCKET SO_REUSEPORT 1,
           Call.bind l AF_INET HOST PORT,
           Call.listen l SOMAXCONN,
           Call.epoll_create1 EPOLL_CLOEXEC,
           Call.epoll_ctl ep EPOLL_CTL_ADD l EPOLLIN 0], none⟩ := by
  obtain ⟨so, ra, rp, bi, li, ec, ct⟩ := s
  cases so with
  | err e => simp [loop_setup, Ans.fd, Worker.after] at h
  | ok l =>
    cases ra with
    | err e =>
      simp [loop_setup, Ans.fd, Worker.after, nat_fd_ne, set_listener_socket_opts,
        Ans.status] at h
    | ok u1 =>
      cases rp with
      | err e =>
        simp [loop_setup, Ans.fd, Worker.after, nat_fd_ne, set_listener_socket_opts,
          Ans.status] at h
      | ok u2 =>
        cases bi with
        | err e =>
          simp [loop_setup, Ans.fd, Worker.after, nat_fd_ne, set_listener_socket_opts,
            Ans.status] at h
        | ok u3 =>
          cases li with
          | err e =>
            simp [loop_setup, Ans.fd, Worker.after, nat_fd_ne, set_listener_socket_opts,
              Ans.status] at h
          | ok u4 =>
            cases ec with
            | err e =>
              simp [loop_setup, Ans.fd, Worker.after, nat_fd_ne, set_listener_socket_opts,
                Ans.status] at h
            | ok ep =>
              cases ct with
              | err e =>
                simp [loop_setup, Ans.fd, Worker.after, nat_fd_ne, set_listener_socket_opts,
                  Ans.status, kernel_epoll_ctl_add, add_fd_to_epoll, nat_fd_nonneg,
                  Worker.registry, registry_of, kernel_step] at h
              | ok u5 =>
                refine ⟨l, ep, rfl, rfl, ?_⟩
                simp [loop_setup, Ans.fd, Worker.after, nat_fd_ne, set_listener_socket_opts,
                  Ans.status, kernel_epoll_ctl_add, add_fd_to_epoll, nat_fd_nonneg,
                  Worker.registry, registry_of, kernel_step]

theorem loop_setup_listener_ok (s : SetupEnv) (h : (loop_setup s).exited = none) :
    (loop_setup s).listener_ok (loop_setup s).listen_sock_fd (loop_setup s).epoll_fd := by
  obtain ⟨l, ep, _, _, hs⟩ := loop_setup_completes s h
  rw [hs]
  refine ⟨rfl, rfl, ?_, ?_⟩
  · simp [registry_of, kernel_step, List.lookup_cons]
  · intro c hc
    simp only [List.mem_cons, List.mem_singleton, List.not_mem_nil, or_false] at hc
    rcases hc with rfl | rfl | rfl | rfl | rfl | rfl | rfl <;>
      simp [Call.disturbs, EPOLL_CTL_ADD, EPOLL_CTL_DEL]

theorem disturbs_false (l : Int) (c : Call) (h : c.disturbs l = false) :
    c ≠ Call.close l
    ∧ (∀ n r, c ≠ Call.read l n r)
    ∧ (∀ b n r, c ≠ Call.write l b n r)
    ∧ (∀ ep fd ev r, c ≠ Call.epoll_ctl ep EPOLL_CTL_DEL fd ev r) := by
  refine ⟨?_, ?_, ?_, ?_⟩
  · rintro rfl
    simp [Call.disturbs] at h
  · rintro n r rfl
    simp [Call.disturbs] at h
  · rintro b n r rfl
    simp [Call.disturbs] at h
  · rintro ep fd ev r rfl
    simp [Call.disturbs] at h

/-! ## Claims about the worker loop -/

/-- C1 fails on the code.  When `accept4` on the listener fails with `EAGAIN`,
the loop body does not skip the rest of the branch: it calls `set_socket_opts`
and `add_fd_to_epoll` with the descriptor -1, the registration is refused and
the process exits with `EXIT_FAILURE`.  In the sample run the batch holds two
listener entries; the worker exits on the first and never dispatches the
second. -/
theorem loop_body_accept_would_block_exits (w : Worker) (ctl : Ans Unit)
    (rd : Ans (List Char)) (wr : Ans Nat) :
    loop_body w ⟨w.listen_sock_fd, Ans.err EAGAIN, ctl, rd, wr⟩ =
        ⟨[Call.accept4 w.listen_sock_fd (SOCK_CLOEXEC ||| O_NONBLOCK) (-1),
          Call.setsockopt (-1) SOL_TCP TCP_NODELAY 1,
          Call.setsockopt (-1) SOL_SOCKET SO_KEEPALIVE 1,
          Call.epoll_ctl w.epoll_fd EPOLL_CTL_ADD (-1) (EPOLLIN ||| EPOLLET) (-1),
          Call.perror "epoll_ctl(epdf, EPOLL_CTL_ADD, fd) failed",
          Call.exit EXIT_FAILURE],
          Outcome.exited EXIT_FAILURE⟩
    ∧ (loop sample_setup [Ans.ok [sample_would_block, sample_accept 5]]).exited
        = some EXIT_FAILURE
    ∧ dispatched ((loop sample_setup
          [Ans.ok [sample_would_block, sample_accept 5]]).trace) = [3] := by
  refine ⟨?_, by decide, by decide⟩
  rw [loop_body_listener w _ rfl]
  simp [Ans.fd, Ans.errno, kernel_epoll_ctl_add, add_fd_to_epoll, Ans.status, set_socket_opts]

/-- C5, as stated, fails: with a read that fails with `EAGAIN` on descriptor 5,
`handle_request` issues `close(5)` and nothing else after the read; in a worker
that had accepted and registered the connection 5, the descriptor is no longer
in the interest list afterwards. -/
theorem handle_request_would_block_closes :
    handle_request 5 (Ans.err EAGAIN) (Ans.ok 67) =
        ⟨[Call.read 5 BUF_SIZE (-1), Call.close 5], Outcome.returned⟩
    ∧ (loop sample_setup [Ans.ok [sample_accept 5]]).registry.lookup 5
        = some (EPOLLIN ||| EPOLLET)
    ∧ (loop sample_setup [Ans.ok [sample_accept 5],
          Ans.ok [⟨5, Ans.err EAGAIN, Ans.ok (), Ans.err EAGAIN, Ans.ok 67⟩]]).registry.lookup 5
        = none := by
  decide

/-- C5, amended: `handle_request` closes the descriptor exactly when its read
returns 0 or -1, whatever `errno` is; in particular after any read failure,
would-block included, it closes the descriptor once, does not write, and returns
normally, and the worker that dispatched the event no longer has the descriptor
in its interest list. -/
theorem handle_request_close_iff (fd : Int) (rd : Ans (List Char)) (wr : Ans Nat) :
    (Call.close fd ∈ (handle_request fd rd wr).trace ↔ rd.read_ret BUF_SIZE ≤ 0)
    ∧ (∀ e : Int, rd = Ans.err e →
        handle_request fd rd wr =
          ⟨[Call.read fd BUF_SIZE (-1), Call.close fd], Outcome.returned⟩)
    ∧ ∀ (w : Worker) (e : Ready), e.fd ≠ w.listen_sock_fd → e.read.read_ret BUF_SIZE ≤ 0 →
        (w.after (loop_body w e)).registry.lookup e.fd = none := by
  refine ⟨?_, ?_, ?_⟩
  · by_cases h : rd.read_ret BUF_SIZE ≤ 0
    · rw [handle_request_no_data fd rd wr h]
      simp [h]
    · rw [handle_request_data fd rd wr (by omega)]
      split <;> simp [h]
  · intro e he
    subst he
    exact handle_request_no_data fd (Ans.err e) wr (by simp [Ans.read_ret])
  · intro w e hfd hr
    rw [loop_body_connection w e hfd, handle_request_no_data e.fd e.read e.write hr]
    simp only [Worker.registry, after_trace, after_epoll, registry_of_append, List.foldl,
      kernel_step]
    exact lookup_filter_self e.fd _

/-- C7: in every state the worker reaches once its set-up has completed,
whatever the sequence of event batches and kernel answers, the worker still
holds the same two descriptors, its listening descriptor is in the interest list
of its epoll instance with mask `EPOLLIN`, and no call it has issued closes the
listening descriptor, removes a descriptor from the epoll instance, or is a read
or write on the listening descriptor (the calls `handle_request` would issue). -/
theorem loop_listener_invariant (s : SetupEnv) (waits : List (Ans (List Ready)))
    (h : (loop_setup s).exited = none) :
    (loop s waits).listen_sock_fd = (loop_setup s).listen_sock_fd
    ∧ (loop s waits).epoll_fd = (loop_setup s).epoll_fd
    ∧ (loop s waits).registry.lookup (loop s waits).listen_sock_fd = some EPOLLIN
    ∧ ∀ c ∈ (loop s waits).trace,
        c ≠ Call.close (loop s waits).listen_sock_fd
        ∧ (∀ n r, c ≠ Call.read (loop s waits).listen_sock_fd n r)
        ∧ (∀ b n r, c ≠ Call.write (loop s waits).listen_sock_fd b n r)
        ∧ (∀ ep fd ev r, c ≠ Call.epoll_ctl ep EPOLL_CTL_DEL fd ev r) := by
  have h0 := loop_setup_listener_ok s h
  have hl : loop s waits = while_loop (loop_setup s) waits := by
    simp [loop, h]
  have h1 := while_loop_keeps_listener _ _ waits _ h0
  rw [← hl] at h1
  obtain ⟨a1, a2, a3, a4⟩ := h1
  refine ⟨a1, a2, ?_, ?_⟩
  · rw [Worker.registry, a1, a2]
    exact a3
  · intro c hc
    rw [a1]
    exact disturbs_false _ c (a4 c hc)

/-- Witness for C7: a worker that accepts connection 5, serves it, and then closes it at end of stream. -/
theorem loop_listener_invariant_witness :
    (loop sample_setup
        [Ans.ok [sample_accept 5, sample_request 5 [Char.ofNat 71]],
         Ans.ok [sample_request 5 []]]).registry.lookup
      (loop sample_setup
        [Ans.ok [sample_accept 5, sample_request 5 [Char.ofNat 71]],
         Ans.ok [sample_request 5 []]]).listen_sock_fd = some EPOLLIN :=
  (loop_listener_invariant sample_setup
    [Ans.ok [sample_accept 5, sample_request 5 [Char.ofNat 71]],
     Ans.ok [sample_request 5 []]] (by decide)).2.2.1

end EpollServer
